import Mathlib

/-!
# Verification of the music-generation route of VoiceCompanion

A shallow embedding of `backend/src/routes/music.ts`: the procedural audio
fallback pipeline (tone synthesizer, WAV container encoder, provider fallback
orchestrator and the `POST /generate` request handler), together with theorems
settling the specification claims about it.

Conventions of the embedding:

* Node `Buffer`s are `List Nat` with every entry < 256.
* JavaScript numbers are exact: integer arithmetic is `Nat`/`Int`
  (`Math.floor` of a real division of naturals is `Nat` division, of a
  possibly negative quantity is `Int.fdiv`), waveform arithmetic is `ℝ`
  with `Real.sin` standing for `Math.sin`.
* Operations that throw (`Buffer.allocUnsafe` on a negative size,
  `Buffer.writeUInt32LE` out of 32-bit range) are `Option`-valued, `none`
  standing for the thrown exception.
* Remote providers are parameters: the primary provider is the
  `Except String (List Nat)` outcome its call would produce, the secondary
  (Hugging Face) providers a function from attempt index to outcome, so that
  theorems quantify over upstream behaviour.
* The handler output carries instrumentation that the source only exposes
  through logs: which tier served the request, how many provider calls were
  made and how many times the local synthesizer ran.
-/

namespace MusicRoute

/-! ## Byte-level primitives (Node `Buffer` write/read semantics) -/

/-- Little-endian bytes of a 16-bit unsigned write (`buffer.writeUInt16LE`). -/
def u16le (v : Nat) : List Nat := [v % 256, v / 256 % 256]

/-- Little-endian bytes of a 32-bit unsigned write (`buffer.writeUInt32LE`). -/
def u32le (v : Nat) : List Nat :=
  [v % 256, v / 256 % 256, v / 65536 % 256, v / 16777216 % 256]

/-- Little-endian bytes of a 16-bit signed write (`buffer.writeInt16LE`):
two's complement of a value in `[-32768, 32767]`.  Node throws outside that
range; every value the synthesizer writes is within `[-12000, 12000]`
(theorem `c6_amplitude_bound`), where this encoding agrees with Node. -/
def int16le (v : Int) : List Nat := u16le (v % 65536).toNat

/-- Decode the little-endian 32-bit unsigned integer at byte offset `off`. -/
def readUInt32LE (bs : List Nat) (off : Nat) : Nat :=
  bs.getD off 0 + 256 * bs.getD (off + 1) 0 +
    65536 * bs.getD (off + 2) 0 + 16777216 * bs.getD (off + 3) 0

/-- Decode the little-endian 16-bit unsigned integer at byte offset `off`. -/
def readUInt16LE (bs : List Nat) (off : Nat) : Nat :=
  bs.getD off 0 + 256 * bs.getD (off + 1) 0

/-- Decode the little-endian 16-bit signed integer at byte offset `off`. -/
def readInt16LE (bs : List Nat) (off : Nat) : Int :=
  let v := readUInt16LE bs off
  if v < 32768 then (v : Int) else (v : Int) - 65536

/-! ## The WAV container encoder (`createWavFile`) -/

/-- ASCII bytes of the tag `RIFF` written at offset 0. -/
def riffTag : List Nat := [82, 73, 70, 70]

/-- ASCII bytes of the tag `WAVE` written at offset 8. -/
def waveTag : List Nat := [87, 65, 86, 69]

/-- ASCII bytes of the tag `fmt ` written at offset 12. -/
def fmtTag : List Nat := [102, 109, 116, 32]

/-- ASCII bytes of the tag `data` written at offset 36. -/
def dataTag : List Nat := [100, 97, 116, 97]

/-- The number of channels fixed by `createWavFile`. -/
def numChannels : Nat := 1

/-- The bits per sample fixed by `createWavFile`. -/
def bitsPerSample : Nat := 16

/-- The 44-byte WAV header exactly as `createWavFile` lays it out: the
writes at offsets 0,4,8,12,16,20,22,24,28,32,34,36,40 tile the header, so the
header is their concatenation in offset order. -/
def wavHeader (dataSize sampleRate : Nat) : List Nat :=
  riffTag ++ u32le (36 + dataSize) ++ waveTag ++
  fmtTag ++ u32le 16 ++ u16le 1 ++ u16le numChannels ++ u32le sampleRate ++
  u32le (sampleRate * numChannels * bitsPerSample / 8) ++
  u16le (numChannels * bitsPerSample / 8) ++ u16le bitsPerSample ++
  dataTag ++ u32le dataSize

/-- `createWavFile(audioData, sampleRate)`: header plus payload.  Node's
`writeUInt32LE` throws `ERR_OUT_OF_RANGE` for values above `2^32 - 1`, so the
encoder only returns a buffer when `fileSize`, `sampleRate` and `byteRate`
fit in 32 bits (the fixed fields 16/1/1/2/16 always fit). -/
def createWavFile (audioData : List Nat) (sampleRate : Nat) : Option (List Nat) :=
  if 36 + audioData.length < 4294967296 ∧ sampleRate < 4294967296 ∧
      sampleRate * numChannels * bitsPerSample / 8 < 4294967296 then
    some (wavHeader audioData.length sampleRate ++ audioData)
  else none

/-! ## The synthesizer (`generateSimpleTone`)

`Math.sin` is modelled by `Real.sin`; all waveform arithmetic is exact real
arithmetic.  Loop indices, note indices and buffer offsets are naturals. -/

/-- `sampleRate = 44100`. -/
def sampleRate : Nat := 44100

/-- The C major scale frequencies in Hz. -/
noncomputable def scale : List ℝ :=
  [261.63, 293.66, 329.63, 349.23, 392.00, 440.00, 493.88, 523.25]

/-- `notesPerSecond = 2`. -/
def notesPerSecond : Nat := 2

/-- `samplesPerNote = Math.floor(sampleRate / notesPerSecond)` (= 22050). -/
def samplesPerNote : Nat := sampleRate / notesPerSecond

/-- `totalNotes = Math.ceil(durationSeconds * notesPerSecond)`; the duration
reaching the synthesizer is an integer, so the ceiling is exact
multiplication. -/
def totalNotes (durationSeconds : Nat) : Nat := durationSeconds * notesPerSecond

/-- The frequency of the note sounding at sample `i`:
`scale[Math.floor(i / samplesPerNote) % totalNotes % scale.length]`. -/
noncomputable def frequencyAt (durationSeconds i : Nat) : ℝ :=
  scale.getD (i / samplesPerNote % totalNotes durationSeconds % scale.length) 0

/-- The two-voice mix at sample `i`:
`((sin(2π·baseFreq·t) + sin(2π·harmonyFreq·t)·0.5) / 1.5` with
`t = i / sampleRate` and `harmonyFreq = baseFreq * 0.5`. -/
noncomputable def mixedSample (durationSeconds i : Nat) : ℝ :=
  let baseFreq := frequencyAt durationSeconds i
  let harmonyFreq := baseFreq * 0.5
  let t : ℝ := (i : ℝ) / (sampleRate : ℝ)
  let sample1 := Real.sin (2 * Real.pi * baseFreq * t)
  let sample2 := Real.sin (2 * Real.pi * harmonyFreq * t) * 0.5
  (sample1 + sample2) / 1.5

/-- The per-note attack/release envelope: linear 0→1 ramp over the first 10%
of the note's samples, 1→0 over the last 10%, and 1 in between. -/
noncomputable def noteEnvelope (i : Nat) : ℝ :=
  let notePosition : ℝ := ((i % samplesPerNote : Nat) : ℝ) / (samplesPerNote : ℝ)
  if notePosition < 0.1 then notePosition / 0.1
  else if notePosition > 0.9 then (1 - notePosition) / 0.1
  else 1

/-- The global 100 ms fade-in/out over the whole clip:
`Math.min(1, Math.min(i / (sampleRate*0.1), (numSamples - i) / (sampleRate*0.1)))`. -/
noncomputable def globalFade (durationSeconds i : Nat) : ℝ :=
  min 1 (min ((i : ℝ) / ((sampleRate : ℝ) * 0.1))
    ((((sampleRate * durationSeconds : Nat) : ℝ) - (i : ℝ)) / ((sampleRate : ℝ) * 0.1)))

/-- The real-valued product `sample * envelope * globalEnvelope * 12000`
computed for sample `i`, before rounding. -/
noncomputable def rawAmplitude (durationSeconds i : Nat) : ℝ :=
  mixedSample durationSeconds i * noteEnvelope i * globalFade durationSeconds i * 12000

/-- The 16-bit value the synthesizer writes for sample `i`:
`Math.floor(sample * envelope * globalEnvelope * 12000)` — `Math.floor`
rounds toward `-∞`. -/
noncomputable def amplitudeAt (durationSeconds i : Nat) : Int :=
  ⌊rawAmplitude durationSeconds i⌋

/-- The synthesized sample sequence: one 16-bit value per index
`i ∈ [0, sampleRate * durationSeconds)`. -/
noncomputable def toneSamples (durationSeconds : Nat) : List Int :=
  (List.range (sampleRate * durationSeconds)).map (amplitudeAt durationSeconds)

/-- The synthesized PCM byte buffer: each sample written little-endian at
offset `i * 2`. -/
noncomputable def tonePcm (durationSeconds : Nat) : List Nat :=
  ((List.range (sampleRate * durationSeconds)).map
    (fun i => int16le (amplitudeAt durationSeconds i))).flatten

/-- `generateSimpleTone(durationSeconds)`: allocate `numSamples * 2` bytes,
fill them with the melody, wrap in a WAV container.  `Buffer.allocUnsafe`
throws on a negative size, which happens exactly when the duration is
negative, hence the `none` branch. -/
noncomputable def generateSimpleTone (durationSeconds : Int) : Option (List Nat) :=
  if durationSeconds < 0 then none
  else createWavFile (tonePcm durationSeconds.toNat) sampleRate

/-! ## The provider fallback orchestrator (`generateMusicFallback`) -/

/-- Which fallback stage produced the audio.  The source only materializes
the distinction `usedFallback : boolean`; the tier is instrumentation
recording which branch ran. -/
inductive Tier
  | primary
  | secondary
  | localSynthesis
deriving DecidableEq

/-- The ordered secondary model list tried by `generateMusicFallback`. -/
def models : List String :=
  ["facebook/musicgen-small", "facebook/musicgen-medium", "audiocraft/musicgen-small"]

/-- One pass of the `for (const model of models)` loop over the per-attempt
outcomes: a thrown request is caught and the loop continues; a response is
returned only when `response.data && response.data.byteLength > 0`; an empty
payload also falls through to the next model.  Returns the winning payload
(if any) and the number of attempts made. -/
def tryModels : List (Except String (List Nat)) → Option (List Nat) × Nat
  | [] => (none, 0)
  | .ok p :: rest =>
    if 0 < p.length then (some p, 1)
    else ((tryModels rest).1, (tryModels rest).2 + 1)
  | .error _ :: rest => ((tryModels rest).1, (tryModels rest).2 + 1)

/-- Instrumentation counters for one orchestrator run. -/
structure FallbackCounters where
  hfAttempts : Nat
  synthCalls : Nat
deriving DecidableEq

/-- The Node `RangeError` message produced by `Buffer.allocUnsafe` on a
negative size; it contains none of the substrings the route's status
classifier looks for. -/
def allocRangeMessage : String :=
  "The value of size is out of range. It must be greater or equal to 0."

/-- `generateMusicFallback(prompt, durationSeconds)` with the Hugging Face
call outcomes supplied as `hf` (outcome of attempt `n`).  The loop tries each
model; on exhaustion line 61 calls `generateSimpleTone(durationSeconds)`
inside the outer `try`.  If that throws (negative duration), the `catch` at
line 62 calls `generateSimpleTone` again, whose second throw escapes the
function — modelled as the `.error` result.  The prompt only flows into the
remote request bodies, so it is not a parameter here. -/
noncomputable def generateMusicFallback (durationSeconds : Int)
    (hf : Nat → Except String (List Nat)) :
    Except String (List Nat × Tier) × FallbackCounters :=
  let t := tryModels ((List.range models.length).map hf)
  match t.1 with
  | some p => (.ok (p, .secondary), ⟨t.2, 0⟩)
  | none =>
    match generateSimpleTone durationSeconds with
    | some wav => (.ok (wav, .localSynthesis), ⟨t.2, 1⟩)
    | none => (.error allocRangeMessage, ⟨t.2, 2⟩)

/-! ## The request handler (`POST /generate`) -/

/-- The `prompt` field of the JSON body: absent, present but not a string, or
a string. -/
inductive PromptField
  | missing
  | nonString
  | str (s : String)

/-- JavaScript `String.prototype.trim` on the character list of a string. -/
def trimChars (cs : List Char) : List Char :=
  ((cs.dropWhile Char.isWhitespace).reverse.dropWhile Char.isWhitespace).reverse

/-- The validation `!prompt || typeof prompt !== 'string' || prompt.trim().length === 0`:
`undefined` and the empty string are falsy; a non-string is rejected by the
`typeof` test whether falsy or not; a whitespace-only string trims to length
zero. -/
def validPrompt : PromptField → Bool
  | .missing => false
  | .nonString => false
  | .str s => !s.data.isEmpty && !(trimChars s.data).isEmpty

/-- `musicLengthMs || 30000`: the default applies when the field is absent or
`0` (falsy). -/
def defaultedMs : Option Int → Int
  | none => 30000
  | some v => if v = 0 then 30000 else v

/-- The duration handed to the fallback tiers:
`Math.min(Math.floor((musicLengthMs || 30000) / 1000), 30)` — `Math.floor`
of the real quotient is floor division. -/
def fallbackDuration (musicLengthMs : Option Int) : Int :=
  min (Int.fdiv (defaultedMs musicLengthMs) 1000) 30

/-- `String.prototype.includes` on character lists. -/
def hasSub (needle : List Char) : List Char → Bool
  | [] => needle.isEmpty
  | c :: rest => needle.isPrefixOf (c :: rest) || hasSub needle rest

/-- `message.includes(pattern)` for the status classifier. -/
def includes (msg pat : String) : Bool := hasSub pat.data msg.data

/-- The HTTP status chosen by substring-matching the upstream error message
in the route's outer `catch`. -/
def statusForMessage (msg : String) : Nat :=
  if includes msg "API key" then 401
  else if includes msg "Payment Required" || includes msg "paid subscription" ||
      includes msg "upgrade your plan" then 402
  else if includes msg "rate limit" then 429
  else if includes msg "not available" || includes msg "endpoint not found" then 404
  else 500

/-- The headers and body of a successful audio response. -/
structure AudioResponse where
  status : Nat
  contentType : String
  contentLength : Nat
  filename : String
  marker : Bool
  body : List Nat
deriving DecidableEq

/-- The structured JSON error response. -/
structure ErrorResponse where
  status : Nat
  error : String
  message : String
deriving DecidableEq

/-- What the route sends back. -/
inductive HandlerResult
  | audio (r : AudioResponse)
  | err (e : ErrorResponse)
deriving DecidableEq

/-- Header assembly at lines 214–223: `Content-Type`, `Content-Length`, the
timestamped `Content-Disposition` filename, and the `X-Music-Source: fallback`
marker exactly when `usedFallback` is true.  `now` is the `Date.now()`
value. -/
def mkAudioResponse (buf : List Nat) (usedFallback : Bool) (now : Nat) : AudioResponse :=
  { status := 200
    contentType := if usedFallback then "audio/wav" else "audio/mpeg"
    contentLength := buf.length
    filename := "generated-music-" ++ toString now ++ (if usedFallback then ".wav" else ".mp3")
    marker := usedFallback
    body := buf }

/-- The handler's observable outcome plus instrumentation: which tier served
(`none` when no audio was produced), how many remote provider calls were made
(primary plus secondary attempts) and how many times `generateSimpleTone`
ran. -/
structure HandlerOutput where
  result : HandlerResult
  providerCalls : Nat
  synthCalls : Nat
  tier : Option Tier

/-- The body of the response when it is audio. -/
def responseBody (o : HandlerOutput) : Option (List Nat) :=
  match o.result with
  | .audio a => some a.body
  | .err _ => none

/-- The `Content-Type` header of the response when it is audio. -/
def audioContentType (o : HandlerOutput) : Option String :=
  match o.result with
  | .audio a => some a.contentType
  | .err _ => none

/-- The `Content-Disposition` filename of the response when it is audio. -/
def audioFilename (o : HandlerOutput) : Option String :=
  match o.result with
  | .audio a => some a.filename
  | .err _ => none

/-- Whether the fallback marker header is present, when the response is audio. -/
def audioMarker (o : HandlerOutput) : Option Bool :=
  match o.result with
  | .audio a => some a.marker
  | .err _ => none

/-- The HTTP status of the response. -/
def resultStatus (o : HandlerOutput) : Nat :=
  match o.result with
  | .audio a => a.status
  | .err e => e.status

/-- The `POST /generate` handler.  Validation first; then the primary
(ElevenLabs) attempt; on its failure the fallback chain of lines 199–211:
`generateMusicFallback` with the clamped duration, and if that itself throws,
a direct `generateSimpleTone` call whose own throw reaches the outer `catch`
and becomes the substring-classified error response. -/
noncomputable def handleGenerate (prompt : PromptField) (musicLengthMs : Option Int)
    (primary : Except String (List Nat)) (hf : Nat → Except String (List Nat))
    (now : Nat) : HandlerOutput :=
  if validPrompt prompt = false then
    { result := .err ⟨400, "Prompt is required",
        "Please provide a text prompt describing the music you want to generate"⟩
      providerCalls := 0, synthCalls := 0, tier := none }
  else
    match primary with
    | .ok buf =>
      { result := .audio (mkAudioResponse buf false now)
        providerCalls := 1, synthCalls := 0, tier := some .primary }
    | .error _ =>
      let d := fallbackDuration musicLengthMs
      let fb := generateMusicFallback d hf
      match fb.1 with
      | .ok (buf, t) =>
        { result := .audio (mkAudioResponse buf true now)
          providerCalls := 1 + fb.2.hfAttempts, synthCalls := fb.2.synthCalls
          tier := some t }
      | .error _ =>
        match generateSimpleTone d with
        | some wav =>
          { result := .audio (mkAudioResponse wav true now)
            providerCalls := 1 + fb.2.hfAttempts, synthCalls := fb.2.synthCalls + 1
            tier := some .localSynthesis }
        | none =>
          { result := .err ⟨statusForMessage allocRangeMessage,
              "Failed to generate music", allocRangeMessage⟩
            providerCalls := 1 + fb.2.hfAttempts, synthCalls := fb.2.synthCalls + 1
            tier := none }

/-- A secondary-provider outcome that does not serve the request: a thrown
request or an empty payload. -/
def notServed (r : Except String (List Nat)) : Prop :=
  r = .ok [] ∨ ∃ e, r = .error e

/-- Rounding toward zero on the reals — the rounding mode named by the
specification for the final amplitude (to compare against the source's
`Math.floor`). -/
noncomputable def ztrunc (x : ℝ) : ℤ := if 0 ≤ x then ⌊x⌋ else -⌊-x⌋

/-! ## Helper lemmas: byte chunks and PCM indexing -/

@[simp] lemma u16le_length (v : Nat) : (u16le v).length = 2 := rfl

@[simp] lemma u32le_length (v : Nat) : (u32le v).length = 4 := rfl

@[simp] lemma int16le_length (v : Int) : (int16le v).length = 2 := rfl

lemma flattenTwo_length (g : Nat → List Nat) (h2 : ∀ i, (g i).length = 2) :
    ∀ n : Nat, (((List.range n).map g).flatten).length = 2 * n := by
  intro n
  induction n with
  | zero => simp
  | succ n ih =>
    rw [List.range_succ, List.map_append, List.flatten_append]
    simp [ih, h2 n]
    omega

lemma flattenTwo_getD (g : Nat → List Nat) (h2 : ∀ i, (g i).length = 2) :
    ∀ n i j : Nat, i < n → j < 2 →
      (((List.range n).map g).flatten).getD (2 * i + j) 0 = (g i).getD j 0 := by
  intro n
  induction n with
  | zero => intro i j hi _; exact absurd hi (Nat.not_lt_zero i)
  | succ n ih =>
    intro i j hi hj
    rw [List.range_succ, List.map_append, List.flatten_append]
    rcases Nat.lt_or_ge i n with h | h
    · rw [List.getD_append]
      · exact ih i j h hj
      · rw [flattenTwo_length g h2 n]; omega
    · have hin : i = n := by omega
      subst hin
      rw [List.getD_append_right]
      · rw [flattenTwo_length g h2 i]
        simp only [List.map_cons, List.map_nil, List.flatten_cons, List.flatten_nil,
          List.append_nil]
        congr 1
        omega
      · rw [flattenTwo_length g h2 i]; omega

lemma tonePcm_length (d : Nat) : (tonePcm d).length = 2 * (sampleRate * d) := by
  rw [tonePcm]
  exact flattenTwo_length _ (fun i => int16le_length _) _

lemma tonePcm_getD (d i j : Nat) (hi : i < sampleRate * d) (hj : j < 2) :
    (tonePcm d).getD (2 * i + j) 0 = (int16le (amplitudeAt d i)).getD j 0 := by
  rw [tonePcm]
  exact flattenTwo_getD _ (fun i => int16le_length _) _ i j hi hj

/-- Reading back a written 16-bit sample recovers the value when it is in the
writable range. -/
lemma readInt16LE_int16le (bs : List Nat) (off : Nat) (v : Int)
    (h0 : bs.getD off 0 = (int16le v).getD 0 0)
    (h1 : bs.getD (off + 1) 0 = (int16le v).getD 1 0)
    (hlo : -32768 ≤ v) (hhi : v ≤ 32767) :
    readInt16LE bs off = v := by
  have hmod : ((v % 65536).toNat : Int) = v % 65536 := by
    have : (0 : Int) ≤ v % 65536 := Int.emod_nonneg v (by norm_num)
    omega
  rw [readInt16LE, readUInt16LE, h0, h1]
  simp only [int16le, u16le, List.getD_cons_zero, List.getD_cons_succ]
  have hv : (v % 65536).toNat % 256 + 256 * ((v % 65536).toNat / 256 % 256)
      = (v % 65536).toNat := by
    have hlt : (v % 65536).toNat < 65536 := by
      have := Int.emod_lt_of_pos v (show (0:Int) < 65536 by norm_num)
      omega
    omega
  rw [hv]
  rcases le_or_lt 0 v with hpos | hneg
  · have : v % 65536 = v := by omega
    rw [this] at hmod ⊢
    have : (v.toNat : Int) = v := by omega
    split
    · omega
    · omega
  · have : v % 65536 = v + 65536 := by omega
    rw [this] at hmod ⊢
    split
    · omega
    · omega

/-! ## Helper lemmas: amplitude bounds -/

lemma abs_mixedSample_le (d i : Nat) : |mixedSample d i| ≤ 1 := by
  rw [mixedSample]
  have h1 := Real.neg_one_le_sin
    (2 * Real.pi * frequencyAt d i * ((i : ℝ) / (sampleRate : ℝ)))
  have h2 := Real.sin_le_one
    (2 * Real.pi * frequencyAt d i * ((i : ℝ) / (sampleRate : ℝ)))
  have h3 := Real.neg_one_le_sin
    (2 * Real.pi * (frequencyAt d i * 0.5) * ((i : ℝ) / (sampleRate : ℝ)))
  have h4 := Real.sin_le_one
    (2 * Real.pi * (frequencyAt d i * 0.5) * ((i : ℝ) / (sampleRate : ℝ)))
  rw [abs_le]
  constructor
  · rw [le_div_iff₀ (by norm_num : (0:ℝ) < 1.5)]
    nlinarith
  · rw [div_le_one (by norm_num : (0:ℝ) < 1.5)]
    nlinarith

lemma samplesPerNote_pos : (0 : ℝ) < (samplesPerNote : ℝ) := by
  norm_num [samplesPerNote, sampleRate, notesPerSecond]

lemma noteEnvelope_bounds (i : Nat) : 0 ≤ noteEnvelope i ∧ noteEnvelope i ≤ 1 := by
  rw [noteEnvelope]
  have hsp := samplesPerNote_pos
  set np : ℝ := ((i % samplesPerNote : Nat) : ℝ) / (samplesPerNote : ℝ) with hnp
  have h0 : 0 ≤ np := div_nonneg (Nat.cast_nonneg _) (le_of_lt hsp)
  have h1 : np < 1 := by
    rw [hnp, div_lt_one hsp]
    exact_mod_cast Nat.mod_lt i (by norm_num [samplesPerNote, sampleRate, notesPerSecond])
  split_ifs with hA hR
  · constructor
    · positivity
    · rw [div_le_one (by norm_num : (0:ℝ) < 0.1)]
      linarith
  · constructor
    · apply div_nonneg _ (by norm_num : (0:ℝ) ≤ 0.1)
      linarith
    · rw [div_le_one (by norm_num : (0:ℝ) < 0.1)]
      linarith
  · norm_num

lemma globalFade_le_one (d i : Nat) : globalFade d i ≤ 1 := by
  rw [globalFade]
  exact min_le_left _ _

lemma globalFade_nonneg (d i : Nat) (hi : i ≤ sampleRate * d) : 0 ≤ globalFade d i := by
  rw [globalFade]
  refine le_min (by norm_num) (le_min ?_ ?_)
  · positivity
  · apply div_nonneg _ (by norm_num [sampleRate] : (0:ℝ) ≤ (sampleRate : ℝ) * 0.1)
    have : (i : ℝ) ≤ ((sampleRate * d : Nat) : ℝ) := by exact_mod_cast hi
    linarith

lemma rawAmplitude_abs_le (d i : Nat) (hi : i < sampleRate * d) :
    |rawAmplitude d i| ≤ 12000 := by
  rw [rawAmplitude]
  have hm := abs_mixedSample_le d i
  have hm0 := abs_nonneg (mixedSample d i)
  have he := noteEnvelope_bounds i
  have hg0 := globalFade_nonneg d i (le_of_lt hi)
  have hg1 := globalFade_le_one d i
  have h1 : |mixedSample d i * noteEnvelope i * globalFade d i * 12000|
      = |mixedSample d i| * noteEnvelope i * globalFade d i * 12000 := by
    rw [abs_mul, abs_mul, abs_mul, abs_of_nonneg he.1, abs_of_nonneg hg0,
      abs_of_nonneg (by norm_num : (0:ℝ) ≤ (12000:ℝ))]
  rw [h1]
  nlinarith [mul_nonneg hm0 he.1, mul_nonneg (mul_nonneg hm0 he.1) hg0]

lemma amplitudeAt_bounds (d i : Nat) (hi : i < sampleRate * d) :
    -12000 ≤ amplitudeAt d i ∧ amplitudeAt d i ≤ 12000 := by
  have h := rawAmplitude_abs_le d i hi
  rw [abs_le] at h
  constructor
  · rw [amplitudeAt]
    exact Int.le_floor.mpr (by exact_mod_cast h.1)
  · rw [amplitudeAt]
    have h2 : ⌊rawAmplitude d i⌋ ≤ ⌊(12000 : ℝ)⌋ := Int.floor_le_floor h.2
    simpa using h2

lemma readInt16LE_tonePcm (d i : Nat) (hi : i < sampleRate * d) :
    readInt16LE (tonePcm d) (2 * i) = amplitudeAt d i := by
  have hb := amplitudeAt_bounds d i hi
  exact readInt16LE_int16le _ _ _
    (by simpa using tonePcm_getD d i 0 hi (by norm_num))
    (by simpa using tonePcm_getD d i 1 hi (by norm_num))
    (by omega) (by omega)

/-! ## Helper lemmas: synthesizer output and orchestrator -/

lemma generateSimpleTone_eq (d : Int) (h0 : 0 ≤ d) (h30 : d ≤ 30) :
    generateSimpleTone d
      = some (wavHeader (2 * (sampleRate * d.toNat)) sampleRate ++ tonePcm d.toNat) := by
  rw [generateSimpleTone, if_neg (by omega)]
  rw [createWavFile, if_pos, tonePcm_length]
  refine ⟨?_, by norm_num [sampleRate], by norm_num [sampleRate, numChannels, bitsPerSample]⟩
  rw [tonePcm_length]
  have hdt : d.toNat ≤ 30 := by omega
  simp only [sampleRate]
  omega

lemma tryModels_allFail : ∀ rs : List (Except String (List Nat)),
    (∀ r ∈ rs, notServed r) → tryModels rs = (none, rs.length) := by
  intro rs
  induction rs with
  | nil => intro _; rfl
  | cons r rest ih =>
    intro h
    have hr := h r (List.mem_cons_self r rest)
    have hrest : ∀ x ∈ rest, notServed x := fun x hx => h x (List.mem_cons_of_mem r hx)
    rcases hr with he | ⟨e, he⟩ <;> subst he <;>
      simp [tryModels, ih hrest]

/-! ## Helper lemmas: header field access -/

@[simp] lemma riffTag_length : riffTag.length = 4 := rfl

@[simp] lemma waveTag_length : waveTag.length = 4 := rfl

@[simp] lemma fmtTag_length : fmtTag.length = 4 := rfl

@[simp] lemma dataTag_length : dataTag.length = 4 := rfl

lemma getD_append_full (chunk rest : List Nat) (off k : Nat) (h : chunk.length ≤ off) :
    (chunk ++ rest).getD (off + k) 0 = rest.getD (off - chunk.length + k) 0 := by
  rw [List.getD_append_right _ _ _ _ (by omega)]
  congr 1
  omega

lemma readUInt32LE_peel (chunk rest : List Nat) (off : Nat) (h : chunk.length ≤ off) :
    readUInt32LE (chunk ++ rest) off = readUInt32LE rest (off - chunk.length) := by
  have e := getD_append_full chunk rest off
  have e0 := e 0 h
  rw [Nat.add_zero] at e0
  rw [readUInt32LE, readUInt32LE, e0, e 1 h, e 2 h, e 3 h]
  rw [Nat.add_zero]

lemma readUInt16LE_peel (chunk rest : List Nat) (off : Nat) (h : chunk.length ≤ off) :
    readUInt16LE (chunk ++ rest) off = readUInt16LE rest (off - chunk.length) := by
  have e := getD_append_full chunk rest off
  have e0 := e 0 h
  rw [Nat.add_zero] at e0
  rw [readUInt16LE, readUInt16LE, e0, e 1 h]
  rw [Nat.add_zero]

lemma readUInt32LE_here (v : Nat) (rest : List Nat) (hv : v < 4294967296) :
    readUInt32LE (u32le v ++ rest) 0 = v := by
  rw [readUInt32LE]
  simp only [u32le, List.cons_append, List.nil_append, List.getD_cons_zero,
    List.getD_cons_succ, Nat.zero_add]
  omega

lemma readUInt16LE_here (v : Nat) (rest : List Nat) (hv : v < 65536) :
    readUInt16LE (u16le v ++ rest) 0 = v := by
  rw [readUInt16LE]
  simp only [u16le, List.cons_append, List.nil_append, List.getD_cons_zero,
    List.getD_cons_succ, Nat.zero_add]
  omega

lemma drop_peel (chunk rest : List Nat) (off : Nat) (h : chunk.length ≤ off) :
    (chunk ++ rest).drop off = rest.drop (off - chunk.length) := by
  rw [List.drop_append_eq_append_drop, List.drop_eq_nil_of_le h, List.nil_append]

/-! ## Helper lemmas: orchestrator tier and exact trigonometric values -/

lemma generateMusicFallback_tier (d : Int) (hf : Nat → Except String (List Nat))
    (buf : List Nat) (t : Tier)
    (h : (generateMusicFallback d hf).1 = .ok (buf, t)) : t ≠ .primary := by
  rw [generateMusicFallback] at h
  rcases htm : (tryModels ((List.range models.length).map hf)).1 with _ | p
  · rw [htm] at h
    rcases hgt : generateSimpleTone d with _ | wav
    · rw [hgt] at h
      simp at h
    · rw [hgt] at h
      simp at h
      rw [← h.2]
      decide
  · rw [htm] at h
    simp at h
    rw [← h.2]
    decide

lemma sqrt3_gt : (1.732 : ℝ) < Real.sqrt 3 := by
  nlinarith [Real.sq_sqrt (show (0:ℝ) ≤ 3 by norm_num), Real.sqrt_nonneg 3]

lemma sqrt3_lt : Real.sqrt 3 < 1.7325 := by
  nlinarith [Real.sq_sqrt (show (0:ℝ) ≤ 3 by norm_num), Real.sqrt_nonneg 3]

/-- At duration 3 and sample index 90525 the sounding note is G (392 Hz):
`90525 / 22050 = 4`, `4 % 6 = 4`, `4 % 8 = 4`. -/
lemma c9aux_freq : frequencyAt 3 90525 = 392 := by
  rw [frequencyAt]
  norm_num [samplesPerNote, sampleRate, notesPerSecond, totalNotes, scale]

/-- Sample 90525 sits in the flat middle of its note
(`90525 % 22050 = 2325`, `2205 ≤ 2325 ≤ 19845`), so the note envelope is 1. -/
lemma c9aux_env : noteEnvelope 90525 = 1 := by
  rw [noteEnvelope]
  have h1 : ¬(((90525 % samplesPerNote : Nat) : ℝ) / (samplesPerNote : ℝ) < 0.1) := by
    norm_num [samplesPerNote, sampleRate, notesPerSecond]
  have h2 : ¬(((90525 % samplesPerNote : Nat) : ℝ) / (samplesPerNote : ℝ) > 0.9) := by
    norm_num [samplesPerNote, sampleRate, notesPerSecond]
  rw [if_neg h1, if_neg h2]

/-- Sample 90525 of a 3-second clip is more than 4410 samples from either
end, so the global fade is 1. -/
lemma c9aux_fade : globalFade 3 90525 = 1 := by
  rw [globalFade]
  have h1 : (1:ℝ) ≤ ((90525 : Nat) : ℝ) / ((sampleRate : ℝ) * 0.1) := by
    norm_num [sampleRate]
  have h2 : (1:ℝ) ≤ ((((sampleRate * 3 : Nat)) : ℝ) - ((90525 : Nat) : ℝ))
      / ((sampleRate : ℝ) * 0.1) := by
    norm_num [sampleRate]
  rw [min_eq_left (le_min h1 h2)]

/-- At sample 90525 the base phase is `2π·(804 + 2/3)` and the harmony phase
`2π·(402 + 1/3)`, giving the exact mix `(-√3/2 + (√3/2)·0.5) / 1.5 = -√3/6`. -/
lemma c9aux_mix : mixedSample 3 90525 = -(Real.sqrt 3) / 6 := by
  rw [mixedSample, c9aux_freq]
  have hbase : 2 * Real.pi * (392 : ℝ) * (((90525 : Nat) : ℝ) / ((sampleRate : Nat) : ℝ))
      = (Real.pi + Real.pi / 3) + (804 : ℤ) * (2 * Real.pi) := by
    norm_num [sampleRate]
    ring
  have hharm : 2 * Real.pi * ((392 : ℝ) * 0.5) * (((90525 : Nat) : ℝ) / ((sampleRate : Nat) : ℝ))
      = (Real.pi - Real.pi / 3) + (402 : ℤ) * (2 * Real.pi) := by
    norm_num [sampleRate]
    ring
  rw [hbase, hharm, Real.sin_add_int_mul_two_pi, Real.sin_add_int_mul_two_pi,
    Real.sin_pi_sub, Real.sin_add, Real.sin_pi, Real.cos_pi, Real.sin_pi_div_three]
  ring

/-- The exact pre-rounding value at duration 3, sample 90525: `-2000·√3`
(≈ -3464.1), an irrational strictly between -3465 and -3464. -/
lemma c9aux_raw : rawAmplitude 3 90525 = -2000 * Real.sqrt 3 := by
  rw [rawAmplitude, c9aux_mix, c9aux_env, c9aux_fade]
  ring

/-- `Math.floor` of `-2000·√3` is `-3465`. -/
lemma c9aux_amp : amplitudeAt 3 90525 = -3465 := by
  rw [amplitudeAt, c9aux_raw, Int.floor_eq_iff]
  have h1 := sqrt3_gt
  have h2 := sqrt3_lt
  constructor
  · push_cast
    nlinarith
  · push_cast
    nlinarith

/-- Truncation toward zero of `-2000·√3` is `-3464`, one more than the floor
the source computes. -/
lemma c9aux_trunc : ztrunc (rawAmplitude 3 90525) = -3464 := by
  rw [c9aux_raw, ztrunc, if_neg]
  · have h : ⌊(2000 : ℝ) * Real.sqrt 3⌋ = 3464 := by
      rw [Int.floor_eq_iff]
      have h1 := sqrt3_gt
      have h2 := sqrt3_lt
      constructor
      · push_cast
        nlinarith
      · push_cast
        nlinarith
    rw [show -(-2000 * Real.sqrt 3) = 2000 * Real.sqrt 3 by ring, h]
  · push_neg
    have := sqrt3_gt
    nlinarith

/-! ## Claim C1 — provider failures are contained (corrected) -/

/-- C1, counterexample to the claim as stated: with the valid prompt
`"calm piano"` and `musicLengthMs = -5000`, the derived duration is `-5`;
when the primary and every secondary provider fail, `generateSimpleTone`
throws on the negative allocation size three times, the last throw reaches
the outer catch, and the caller receives a 500 error instead of audio — so
the prompt check is not the only caller-visible failure path. -/
theorem c1_counterexample :
    (handleGenerate (.str "calm piano") (some (-5000)) (.error "provider down")
        (fun _ => .error "request failed") 0).result
      = .err ⟨500, "Failed to generate music", allocRangeMessage⟩ := by
  have hv : validPrompt (.str "calm piano") = true := by decide
  have hst : statusForMessage allocRangeMessage = 500 := by decide
  have hfd : fallbackDuration (some (-5000)) = -5 := by decide
  have htone : generateSimpleTone (-5) = none := by
    rw [generateSimpleTone, if_pos (by decide)]
  simp only [handleGenerate, hv, Bool.true_eq_false, if_false, hfd,
    generateMusicFallback, models, List.length_cons, List.length_nil,
    List.range_succ, List.range_zero, List.map_append, List.map_cons, List.map_nil,
    List.nil_append, List.cons_append, tryModels, htone, hst]

/-- C1, amended: for every request with a valid non-empty prompt whose
derived fallback duration `min(floor((musicLengthMs || 30000)/1000), 30)` is
non-negative (in particular whenever `musicLengthMs` is omitted, zero, or at
least zero), a failing primary provider and secondary providers that all
throw or return empty payloads are caught inside the orchestrator: the
handler still answers with the locally synthesized WAV audio payload. -/
theorem c1_resilience (s : String) (hs : validPrompt (.str s) = true)
    (ms : Option Int) (hms : 0 ≤ fallbackDuration ms)
    (e : String) (hf : Nat → Except String (List Nat))
    (hhf : ∀ n, n < models.length → notServed (hf n)) (now : Nat) :
    (handleGenerate (.str s) ms (.error e) hf now).result
      = .audio (mkAudioResponse
          (wavHeader (2 * (sampleRate * (fallbackDuration ms).toNat)) sampleRate
            ++ tonePcm (fallbackDuration ms).toNat) true now) ∧
    (handleGenerate (.str s) ms (.error e) hf now).tier = some .localSynthesis := by
  have hd30 : fallbackDuration ms ≤ 30 := min_le_right _ _
  have htone := generateSimpleTone_eq (fallbackDuration ms) hms hd30
  have htry : tryModels ((List.range models.length).map hf)
      = (none, ((List.range models.length).map hf).length) := by
    apply tryModels_allFail
    intro r hr
    obtain ⟨n, hn, rfl⟩ := List.mem_map.mp hr
    exact hhf n (List.mem_range.mp hn)
  simp only [handleGenerate, hs, Bool.true_eq_false, if_false,
    generateMusicFallback, htry, htone]
  exact ⟨trivial, trivial⟩

/-- C1, witness: a concrete all-providers-fail run that still yields audio. -/
theorem c1_witness :
    validPrompt (.str "calm piano") = true ∧ (0 : Int) ≤ fallbackDuration none ∧
    (handleGenerate (.str "calm piano") none (.error "down") (fun _ => .error "x") 0).result
      = .audio (mkAudioResponse
          (wavHeader (2 * (sampleRate * (fallbackDuration none).toNat)) sampleRate
            ++ tonePcm (fallbackDuration none).toNat) true 0) :=
  ⟨by decide, by decide,
    (c1_resilience "calm piano" (by decide) none (by decide) "down"
      (fun _ => .error "x") (fun n _ => Or.inr ⟨"x", rfl⟩) 0).1⟩

/-! ## Claim C2 — response headers per serving tier (corrected) -/

/-- C2, counterexample to the claim as stated: when the primary fails and
the first secondary model serves the request (tier Secondary), the code has
already set `usedFallback = true`, so the `Content-Type` is `audio/wav` and
the filename extension is `.wav` — not `audio/mpeg`/`.mp3` as the claim says
for Secondary-served requests. -/
theorem c2_counterexample :
    (handleGenerate (.str "music") (some 5000) (.error "down")
        (fun _ => .ok [1, 2, 3]) 0).tier = some .secondary ∧
    audioContentType (handleGenerate (.str "music") (some 5000) (.error "down")
        (fun _ => .ok [1, 2, 3]) 0) = some "audio/wav" ∧
    audioFilename (handleGenerate (.str "music") (some 5000) (.error "down")
        (fun _ => .ok [1, 2, 3]) 0) = some "generated-music-0.wav" := by
  have hv : validPrompt (.str "music") = true := by decide
  simp only [handleGenerate, hv, Bool.true_eq_false, if_false,
    generateMusicFallback, models, List.length_cons, List.length_nil,
    List.range_succ, List.range_zero, List.map_append, List.map_cons, List.map_nil,
    List.nil_append, List.cons_append, tryModels, audioContentType, audioFilename,
    mkAudioResponse]
  norm_num
  decide

/-- C2, amended: for every successful generation the `Content-Type` is
`audio/mpeg` with filename extension `.mp3` exactly when the Primary
provider served the request; when a Secondary provider or LocalSynthesis
served it the `Content-Type` is `audio/wav` with extension `.wav`; the
`X-Music-Source` marker header is present exactly when a non-primary tier
served the request. -/
theorem c2_headers (prompt : PromptField) (ms : Option Int)
    (primary : Except String (List Nat)) (hf : Nat → Except String (List Nat))
    (now : Nat) (t : Tier)
    (ht : (handleGenerate prompt ms primary hf now).tier = some t) :
    audioContentType (handleGenerate prompt ms primary hf now)
      = some (if t = .primary then "audio/mpeg" else "audio/wav") ∧
    audioFilename (handleGenerate prompt ms primary hf now)
      = some ("generated-music-" ++ toString now
          ++ (if t = .primary then ".mp3" else ".wav")) ∧
    (audioMarker (handleGenerate prompt ms primary hf now) = some true ↔ t ≠ .primary) := by
  rw [handleGenerate.eq_def] at ht ⊢
  by_cases hv : validPrompt prompt = false
  · rw [if_pos hv] at ht
    simp at ht
  · rw [if_neg hv] at ht ⊢
    cases primary with
    | ok buf =>
      simp only [HandlerOutput.tier, Option.some.injEq] at ht
      subst ht
      simp [audioContentType, audioFilename, audioMarker, mkAudioResponse]
    | error e =>
      rcases hfb : (generateMusicFallback (fallbackDuration ms) hf).1 with e2 | ⟨buf, t2⟩ <;>
        simp only [hfb] at ht ⊢
      · rcases hgt : generateSimpleTone (fallbackDuration ms) with _ | wav <;>
          simp only [hgt] at ht ⊢
        · simp at ht
        · simp only [HandlerOutput.tier, Option.some.injEq] at ht
          subst ht
          simp [audioContentType, audioFilename, audioMarker, mkAudioResponse]
      · simp only [HandlerOutput.tier, Option.some.injEq] at ht
        subst ht
        have hnp := generateMusicFallback_tier _ hf _ _ hfb
        simp [audioContentType, audioFilename, audioMarker, mkAudioResponse, hnp]

/-- C2, witness: a Primary-served run, whose `Content-Type` the amended
theorem determines to be `audio/mpeg`. -/
theorem c2_witness :
    (handleGenerate (.str "m") none (.ok [1]) (fun _ => .ok []) 0).tier
      = some .primary ∧
    audioContentType (handleGenerate (.str "m") none (.ok [1]) (fun _ => .ok []) 0)
      = some (if Tier.primary = Tier.primary then "audio/mpeg" else "audio/wav") := by
  have hv : validPrompt (.str "m") = true := by decide
  have ht : (handleGenerate (.str "m") none (.ok [1]) (fun _ => .ok []) 0).tier
      = some .primary := by
    simp only [handleGenerate, hv, Bool.true_eq_false, if_false]
  exact ⟨ht, (c2_headers _ _ _ _ _ _ ht).1⟩

/-! ## Claim C3 — fallback duration clamping (code bug) -/

/-- C3: the code only clamps the fallback duration from above
(`Math.min(·, 30)`), never from below.  A sub-second `musicLengthMs = 500`
is truthy, so the default does not apply and the duration floor-divides to
`0`, which reaches `generateSimpleTone` and produces a 44-byte WAV with zero
PCM samples; a negative `musicLengthMs = -5000` yields duration `-5`,
violating the documented invariant that the synthesis duration is a positive
integer. -/
theorem c3_duration_not_clamped_below :
    fallbackDuration (some 500) = 0 ∧ fallbackDuration (some (-5000)) = -5 ∧
    responseBody (handleGenerate (.str "music") (some 500) (.error "down")
        (fun _ => .error "fail") 0)
      = some (wavHeader 0 sampleRate ++ tonePcm 0) ∧
    tonePcm 0 = [] := by
  have h1 : fallbackDuration (some 500) = 0 := by decide
  have h2 : fallbackDuration (some (-5000)) = -5 := by decide
  have hv : validPrompt (.str "music") = true := by decide
  have htone : generateSimpleTone (fallbackDuration (some 500))
      = some (wavHeader 0 sampleRate ++ tonePcm 0) := by
    rw [h1]
    have h := generateSimpleTone_eq 0 (by norm_num) (by norm_num)
    simpa [sampleRate] using h
  have htry : tryModels ((List.range models.length).map
        (fun _ => (.error "fail" : Except String (List Nat)))) = (none, 3) := by
    simp [models, List.range_succ, tryModels]
  refine ⟨h1, h2, ?_, by simp [tonePcm, sampleRate]⟩
  simp only [handleGenerate, hv, Bool.true_eq_false, if_false,
    generateMusicFallback, htry, htone, responseBody, mkAudioResponse]

/-! ## Claim C4 — synthesized buffer and declared sizes (confirmed) -/

/-- C4: for every duration in [1, 30], the synthesizer produces exactly
`44100 × durationSeconds` 16-bit samples (`2 × 44100 × d` PCM bytes), and
the encoded container's declared data-size field equals that byte length
while its declared file-size field equals `36 + dataSize`. -/
theorem c4_sizes (d : Nat) (hd1 : 1 ≤ d) (hd30 : d ≤ 30) :
    (toneSamples d).length = 44100 * d ∧
    (tonePcm d).length = 44100 * d * 2 ∧
    generateSimpleTone (d : Int)
      = some (wavHeader (2 * (sampleRate * d)) sampleRate ++ tonePcm d) ∧
    readUInt32LE (wavHeader (2 * (sampleRate * d)) sampleRate ++ tonePcm d) 40
      = 44100 * d * 2 ∧
    readUInt32LE (wavHeader (2 * (sampleRate * d)) sampleRate ++ tonePcm d) 4
      = 36 + 44100 * d * 2 := by
  have hlen : (tonePcm d).length = 44100 * d * 2 := by
    rw [tonePcm_length]
    simp [sampleRate]
    ring
  refine ⟨by simp [toneSamples, sampleRate], hlen, ?_, ?_, ?_⟩
  · have h := generateSimpleTone_eq (d : Int) (by positivity) (by exact_mod_cast hd30)
    simpa using h
  · rw [wavHeader]
    simp (disch := simp) only [List.append_assoc, readUInt32LE_peel, riffTag_length,
      waveTag_length, fmtTag_length, dataTag_length, u32le_length, u16le_length]
    rw [readUInt32LE_here _ _ (by simp [sampleRate]; omega)]
    simp [sampleRate]
    ring
  · rw [wavHeader]
    simp (disch := simp) only [List.append_assoc, readUInt32LE_peel, riffTag_length,
      waveTag_length, fmtTag_length, dataTag_length, u32le_length, u16le_length]
    rw [readUInt32LE_here _ _ (by simp [sampleRate]; omega)]
    simp [sampleRate]
    ring

/-- C4, witness at duration 1. -/
theorem c4_witness :
    1 ≤ 1 ∧ 1 ≤ 30 ∧ (toneSamples 1).length = 44100 * 1 :=
  ⟨by decide, by decide, (c4_sizes 1 (by decide) (by decide)).1⟩

/-! ## Claim C5 — container layout (confirmed) -/

/-- C5: for every PCM buffer and sample rate the encoder accepts (its
integer fields fit the 32-bit writes; outside that range Node's
`writeUInt32LE` throws), the output is the 44-byte header followed by the
payload, with `RIFF` at offsets 0–3, `WAVE` at 8–11 and `data` at 36–39,
every multi-byte integer field little-endian — file size `36 + dataSize` at
offset 4, fmt-chunk size 16 at 16, PCM format 1 at 20, channel count at 22,
sample rate at 24, byte rate `sampleRate × channels × bitsPerSample/8` at
28, block alignment `channels × bitsPerSample/8` at 32, bits per sample at
34, data size at 40 — for the fixed 1 channel and 16 bits per sample. -/
theorem c5_header_layout (audioData : List Nat) (sr : Nat)
    (h1 : 36 + audioData.length < 4294967296) (h2 : sr < 4294967296)
    (h3 : sr * numChannels * bitsPerSample / 8 < 4294967296) :
    createWavFile audioData sr = some (wavHeader audioData.length sr ++ audioData) ∧
    (wavHeader audioData.length sr).length = 44 ∧
    (wavHeader audioData.length sr ++ audioData).take 4 = riffTag ∧
    ((wavHeader audioData.length sr ++ audioData).drop 8).take 4 = waveTag ∧
    ((wavHeader audioData.length sr ++ audioData).drop 36).take 4 = dataTag ∧
    readUInt32LE (wavHeader audioData.length sr ++ audioData) 4
      = 36 + audioData.length ∧
    readUInt32LE (wavHeader audioData.length sr ++ audioData) 16 = 16 ∧
    readUInt16LE (wavHeader audioData.length sr ++ audioData) 20 = 1 ∧
    readUInt16LE (wavHeader audioData.length sr ++ audioData) 22 = numChannels ∧
    readUInt32LE (wavHeader audioData.length sr ++ audioData) 24 = sr ∧
    readUInt32LE (wavHeader audioData.length sr ++ audioData) 28
      = sr * numChannels * bitsPerSample / 8 ∧
    readUInt16LE (wavHeader audioData.length sr ++ audioData) 32
      = numChannels * bitsPerSample / 8 ∧
    readUInt16LE (wavHeader audioData.length sr ++ audioData) 34 = bitsPerSample ∧
    readUInt32LE (wavHeader audioData.length sr ++ audioData) 40 = audioData.length ∧
    (wavHeader audioData.length sr ++ audioData).drop 44 = audioData := by
  refine ⟨?_, ?_, ?_, ?_, ?_, ?_, ?_, ?_, ?_, ?_, ?_, ?_, ?_, ?_, ?_⟩
  · rw [createWavFile, if_pos ⟨h1, h2, h3⟩]
  · simp [wavHeader, List.length_append, numChannels, bitsPerSample]
  · rw [wavHeader]
    simp only [List.append_assoc]
    exact List.take_left' riffTag_length
  · rw [wavHeader]
    simp (disch := simp) only [List.append_assoc, drop_peel, riffTag_length,
      waveTag_length, fmtTag_length, dataTag_length, u32le_length, u16le_length]
    norm_num [waveTag]
  · rw [wavHeader]
    simp (disch := simp) only [List.append_assoc, drop_peel, riffTag_length,
      waveTag_length, fmtTag_length, dataTag_length, u32le_length, u16le_length]
    norm_num [dataTag]
  · rw [wavHeader]
    simp (disch := simp) only [List.append_assoc, readUInt32LE_peel, riffTag_length,
      waveTag_length, fmtTag_length, dataTag_length, u32le_length, u16le_length]
    exact readUInt32LE_here _ _ h1
  · rw [wavHeader]
    simp (disch := simp) only [List.append_assoc, readUInt32LE_peel, riffTag_length,
      waveTag_length, fmtTag_length, dataTag_length, u32le_length, u16le_length]
    exact readUInt32LE_here _ _ (by norm_num)
  · rw [wavHeader]
    simp (disch := simp) only [List.append_assoc, readUInt16LE_peel, riffTag_length,
      waveTag_length, fmtTag_length, dataTag_length, u32le_length, u16le_length]
    exact readUInt16LE_here _ _ (by norm_num)
  · rw [wavHeader]
    simp (disch := simp) only [List.append_assoc, readUInt16LE_peel, riffTag_length,
      waveTag_length, fmtTag_length, dataTag_length, u32le_length, u16le_length]
    exact readUInt16LE_here _ _ (by norm_num [numChannels])
  · rw [wavHeader]
    simp (disch := simp) only [List.append_assoc, readUInt32LE_peel, riffTag_length,
      waveTag_length, fmtTag_length, dataTag_length, u32le_length, u16le_length]
    exact readUInt32LE_here _ _ h2
  · rw [wavHeader]
    simp (disch := simp) only [List.append_assoc, readUInt32LE_peel, riffTag_length,
      waveTag_length, fmtTag_length, dataTag_length, u32le_length, u16le_length]
    exact readUInt32LE_here _ _ h3
  · rw [wavHeader]
    simp (disch := simp) only [List.append_assoc, readUInt16LE_peel, riffTag_length,
      waveTag_length, fmtTag_length, dataTag_length, u32le_length, u16le_length]
    exact readUInt16LE_here _ _ (by norm_num [numChannels, bitsPerSample])
  · rw [wavHeader]
    simp (disch := simp) only [List.append_assoc, readUInt16LE_peel, riffTag_length,
      waveTag_length, fmtTag_length, dataTag_length, u32le_length, u16le_length]
    exact readUInt16LE_here _ _ (by norm_num [bitsPerSample])
  · rw [wavHeader]
    simp (disch := simp) only [List.append_assoc, readUInt32LE_peel, riffTag_length,
      waveTag_length, fmtTag_length, dataTag_length, u32le_length, u16le_length]
    exact readUInt32LE_here _ _ (by omega)
  · rw [wavHeader]
    simp (disch := simp) only [List.append_assoc, drop_peel, riffTag_length,
      waveTag_length, fmtTag_length, dataTag_length, u32le_length, u16le_length]
    simp

/-- C5, witness on a 2-byte payload at 8000 Hz. -/
theorem c5_witness :
    36 + ([7, 7] : List Nat).length < 4294967296 ∧
    createWavFile [7, 7] 8000 = some (wavHeader ([7, 7] : List Nat).length 8000 ++ [7, 7]) :=
  ⟨by decide, (c5_header_layout [7, 7] 8000 (by decide) (by decide) (by decide)).1⟩

/-! ## Claim C6 — amplitude stays within ±12000 (confirmed) -/

/-- C6: for every positive duration, every 16-bit sample value the
synthesizer writes has absolute value at most 12000, far inside the 16-bit
signed range. -/
theorem c6_amplitude_bound (d : Nat) (_hd : 0 < d) :
    ∀ v ∈ toneSamples d, |v| ≤ 12000 := by
  intro v hv
  rw [toneSamples] at hv
  obtain ⟨i, hi, rfl⟩ := List.mem_map.mp hv
  have hi2 := List.mem_range.mp hi
  have hb := amplitudeAt_bounds d i hi2
  rw [abs_le]
  exact ⟨hb.1, hb.2⟩

/-- C6, witness at duration 1. -/
theorem c6_witness : 0 < 1 ∧ ∀ v ∈ toneSamples 1, |v| ≤ 12000 :=
  ⟨by decide, c6_amplitude_bound 1 (by decide)⟩

/-! ## Claim C7 — synthesis is deterministic (confirmed) -/

/-- C7: the synthesizer is a pure function of the duration — two calls with
the same duration give byte-identical buffers — and the response body is
independent of the wall clock (`Date.now()` only enters the attachment
filename). -/
theorem c7_determinism (d : Int) (prompt : PromptField) (ms : Option Int)
    (primary : Except String (List Nat)) (hf : Nat → Except String (List Nat))
    (now1 now2 : Nat) :
    generateSimpleTone d = generateSimpleTone d ∧
    responseBody (handleGenerate prompt ms primary hf now1)
      = responseBody (handleGenerate prompt ms primary hf now2) := by
  refine ⟨rfl, ?_⟩
  rw [handleGenerate.eq_def, handleGenerate.eq_def]
  by_cases hv : validPrompt prompt = false
  · rw [if_pos hv, if_pos hv]
  · rw [if_neg hv, if_neg hv]
    cases primary with
    | ok buf => simp [responseBody, mkAudioResponse]
    | error e =>
      rcases hfb : (generateMusicFallback (fallbackDuration ms) hf).1 with e2 | ⟨buf, t2⟩ <;>
        simp only [hfb]
      · rcases hgt : generateSimpleTone (fallbackDuration ms) with _ | wav <;>
          simp [hgt, responseBody, mkAudioResponse]
      · simp [responseBody, mkAudioResponse]

/-! ## Claim C8 — secondary fallback ordering (confirmed) -/

/-- C8: when the primary fails, a first secondary attempt that does not
serve (empty payload, or a thrown request) makes the loop continue; a second
attempt returning a non-empty payload wins: the handler answers with that
payload at tier Secondary, after exactly 3 provider calls (primary plus two
secondary attempts), and the local synthesizer never runs. -/
theorem c8_fallback_ordering (s : String) (hs : validPrompt (.str s) = true)
    (ms : Option Int) (e : String) (p2 : List Nat) (hp2 : 0 < p2.length)
    (hf : Nat → Except String (List Nat))
    (h0 : hf 0 = .ok [] ∨ ∃ e0, hf 0 = .error e0)
    (h1 : hf 1 = .ok p2) (now : Nat) :
    responseBody (handleGenerate (.str s) ms (.error e) hf now) = some p2 ∧
    (handleGenerate (.str s) ms (.error e) hf now).tier = some .secondary ∧
    (handleGenerate (.str s) ms (.error e) hf now).synthCalls = 0 ∧
    (handleGenerate (.str s) ms (.error e) hf now).providerCalls = 3 := by
  have hmap : (List.range models.length).map hf = [hf 0, hf 1, hf 2] := by
    simp [models, List.range_succ]
  have htry : tryModels ((List.range models.length).map hf) = (some p2, 2) := by
    rw [hmap]
    rcases h0 with h0 | ⟨e0, h0⟩ <;>
      simp [h0, tryModels, h1, hp2, Nat.pos_iff_ne_zero]
  simp only [handleGenerate, hs, Bool.true_eq_false, if_false,
    generateMusicFallback, htry, responseBody, mkAudioResponse]
  exact ⟨trivial, trivial, trivial, trivial⟩

/-- C8, witness: first secondary attempt empty, second serves `[7]`. -/
theorem c8_witness :
    validPrompt (.str "piano") = true ∧ 0 < ([7] : List Nat).length ∧
    responseBody (handleGenerate (.str "piano") none (.error "down")
        (fun n => if n = 0 then .ok [] else .ok [7]) 0) = some [7] :=
  ⟨by decide, by decide,
    (c8_fallback_ordering "piano" (by decide) none "down" [7] (by decide)
      (fun n => if n = 0 then .ok [] else .ok [7]) (Or.inl rfl) rfl 0).1⟩

/-! ## Claim C9 — the per-sample formula (corrected) -/

/-- C9, counterexample to the claim as stated: the source rounds with
`Math.floor` (toward `-∞`), not toward zero.  At duration 3, sample 90525,
the pre-rounding value is exactly `-2000·√3 ≈ -3464.1`: the byte pair the
synthesizer writes decodes to `-3465` (the floor), while rounding toward
zero as the claim states would give `-3464`. -/
theorem c9_counterexample :
    readInt16LE (tonePcm 3) (2 * 90525) = -3465 ∧
    amplitudeAt 3 90525 = -3465 ∧
    ztrunc (rawAmplitude 3 90525) = -3464 := by
  have hi : (90525 : Nat) < sampleRate * 3 := by norm_num [sampleRate]
  exact ⟨by rw [readInt16LE_tonePcm 3 90525 hi, c9aux_amp], c9aux_amp, c9aux_trunc⟩

/-- C9, amended: for every sample index `i < 44100·d`, the byte pair written
at offset `2i` decodes (little-endian, signed) to the floor — rounding
toward `-∞`, as `Math.floor` does, rather than toward zero — of
`(sin(2π·baseFreq·t) + 0.5·sin(2π·(baseFreq/2)·t)) / 1.5` times the per-note
envelope, the global fade and 12000, where `t = i/44100` and `baseFreq` is
the scale note selected by `noteIndex = floor(i / samplesPerNote) mod
totalNotes` and `scaleIndex = noteIndex mod 8`. -/
theorem c9_sample_formula (d i : Nat) (hi : i < sampleRate * d) :
    readInt16LE (tonePcm d) (2 * i) =
      ⌊(Real.sin (2 * Real.pi
            * (scale.getD (i / samplesPerNote % totalNotes d % scale.length) 0)
            * ((i : ℝ) / (sampleRate : ℝ)))
          + 0.5 * Real.sin (2 * Real.pi
            * ((scale.getD (i / samplesPerNote % totalNotes d % scale.length) 0) / 2)
            * ((i : ℝ) / (sampleRate : ℝ)))) / 1.5
        * noteEnvelope i * globalFade d i * 12000⌋ := by
  rw [readInt16LE_tonePcm d i hi, amplitudeAt, rawAmplitude, mixedSample, frequencyAt]
  congr 2
  set f := scale.getD (i / samplesPerNote % totalNotes d % scale.length) 0 with hf
  set t : ℝ := (i : ℝ) / (sampleRate : ℝ) with ht
  have hBB : 2 * Real.pi * (f * 0.5) * t = 2 * Real.pi * (f / 2) * t := by ring
  rw [hBB]
  ring

/-- C9, witness at duration 1, sample 0. -/
theorem c9_witness :
    (0 : Nat) < sampleRate * 1 ∧
    readInt16LE (tonePcm 1) (2 * 0) =
      ⌊(Real.sin (2 * Real.pi
            * (scale.getD (0 / samplesPerNote % totalNotes 1 % scale.length) 0)
            * (((0 : Nat) : ℝ) / (sampleRate : ℝ)))
          + 0.5 * Real.sin (2 * Real.pi
            * ((scale.getD (0 / samplesPerNote % totalNotes 1 % scale.length) 0) / 2)
            * (((0 : Nat) : ℝ) / (sampleRate : ℝ)))) / 1.5
        * noteEnvelope 0 * globalFade 1 0 * 12000⌋ :=
  ⟨by decide, c9_sample_formula 1 0 (by decide)⟩

/-! ## Claim C10 — whitespace-only prompts are rejected (confirmed) -/

/-- C10: a prompt that is only whitespace trims to length zero, so the
handler rejects it with the 400 structured error before any provider call
(the provider-call and synthesizer-call counts stay zero), in addition to
the missing/empty/non-string cases. -/
theorem c10_whitespace_rejected (s : String) (hs : trimChars s.data = [])
    (ms : Option Int) (primary : Except String (List Nat))
    (hf : Nat → Except String (List Nat)) (now : Nat) :
    (handleGenerate (.str s) ms primary hf now).result
      = .err ⟨400, "Prompt is required",
          "Please provide a text prompt describing the music you want to generate"⟩ ∧
    (handleGenerate (.str s) ms primary hf now).providerCalls = 0 ∧
    (handleGenerate (.str s) ms primary hf now).synthCalls = 0 := by
  have hv : validPrompt (.str s) = false := by
    simp [validPrompt, hs]
  simp [handleGenerate, hv]

/-- C10, witness: a three-space prompt is rejected with no provider call. -/
theorem c10_witness :
    trimChars "   ".data = [] ∧
    (handleGenerate (.str "   ") none (.ok [1]) (fun _ => .ok []) 0).providerCalls = 0 :=
  ⟨by decide,
    (c10_whitespace_rejected "   " (by decide) none (.ok [1]) (fun _ => .ok []) 0).2.1⟩

end MusicRoute
